import Mathlib

/-!
Verification development for the synth-map-log repository: a security-monitoring
dashboard backend with two record kinds (log entries, network activity points),
CRUD-style handlers over a relational store, and table-driven dummy-data generators.

Shallow embedding conventions:
* The relational store is a `List` of rows; `serial` identifiers are assigned by
  `nextLogId` / `nextActId` (one more than the maximum id in the store), and
  `created_at` columns with `defaultNow()` receive the `now` parameter.
* JavaScript `Date` values are milliseconds since the epoch, modelled as `ℚ`.
* `Math.random()` draws are modelled by a stream `rand : ℕ → ℚ` of values in `[0, 1)`
  (one index per call site occurrence); `Math.floor` is `ratFloor`.
* SQL `ORDER BY timestamp DESC` together with the JavaScript stable
  `sort((a, b) => b.timestamp - a.timestamp)` is modelled by `sortDescBy`,
  a stable insertion sort on the timestamp key.
* `undefined` / `null` become `Option`; JSONB metadata is a list of keyed values.
-/

/-- Severity enumeration from `schema.ts` (`logSeveritySchema`,
`pgEnum log_severity`): info/warning/error/debug/critical. -/
inductive LogSeverity
  | info
  | warning
  | error
  | debug
  | critical
deriving DecidableEq

/-- Activity type enumeration from `schema.ts` (`activityTypeSchema`,
`pgEnum activity_type`): intrusion/firewall/connection/scan/breach/traffic. -/
inductive ActivityType
  | intrusion
  | firewall
  | connection
  | scan
  | breach
  | traffic
deriving DecidableEq

/-- A JSON scalar, for the opaque JSONB metadata column. -/
inductive JsonVal
  | num (q : ℚ)
  | str (s : String)
  | bool (b : Bool)
deriving DecidableEq

/-- Opaque key/value metadata object (JSONB column). -/
abbrev Metadata := List (String × JsonVal)

/-- A row of `log_entries` (`db/schema.ts` `logEntriesTable`). -/
structure LogEntry where
  id : ℕ
  timestamp : ℚ
  severity : LogSeverity
  source : String
  message : String
  ip_address : Option String
  user_agent : Option String
  created_at : ℚ
deriving DecidableEq

/-- A row of `network_activities` (`db/schema.ts` `networkActivitiesTable`). -/
structure NetworkActivity where
  id : ℕ
  latitude : ℚ
  longitude : ℚ
  activity_type : ActivityType
  title : String
  description : String
  ip_address : String
  port : Option ℤ
  country : Option String
  city : Option String
  severity : LogSeverity
  timestamp : ℚ
  metadata : Option Metadata
  created_at : ℚ
deriving DecidableEq

/-- `createLogEntryInputSchema` from `schema.ts`: severity, source, message and the
two nullable fields. Note there is no timestamp field. -/
structure CreateLogEntryInput where
  severity : LogSeverity
  source : String
  message : String
  ip_address : Option String
  user_agent : Option String

/-- `createNetworkActivityInputSchema` from `schema.ts`. -/
structure CreateNetworkActivityInput where
  latitude : ℚ
  longitude : ℚ
  activity_type : ActivityType
  title : String
  description : String
  ip_address : String
  port : Option ℤ
  country : Option String
  city : Option String
  severity : LogSeverity
  metadata : Option Metadata

/-- `logQueryParamsSchema` from `schema.ts`: all fields optional. -/
structure LogQueryParams where
  limit : Option ℕ
  offset : Option ℕ
  severity : Option LogSeverity
  since : Option ℚ

/-- `networkActivityQueryParamsSchema` from `schema.ts` (no offset field). -/
structure NetworkActivityQueryParams where
  limit : Option ℕ
  activity_type : Option ActivityType
  severity : Option LogSeverity
  since : Option ℚ

/-! ### Descending sort on a rational key

`ORDER BY timestamp DESC` and `sort((a, b) => b.timestamp - a.timestamp)` are both
modelled by a stable insertion sort on the key, greatest first. -/

/-- The "descending" relation induced by a rational key. -/
def keyDescRel {α : Type} (key : α → ℚ) (a b : α) : Prop :=
  key b ≤ key a

instance {α : Type} (key : α → ℚ) : DecidableRel (keyDescRel key) :=
  fun a b => inferInstanceAs (Decidable (key b ≤ key a))

instance {α : Type} (key : α → ℚ) : IsTotal α (keyDescRel key) :=
  ⟨fun a b => le_total (key b) (key a)⟩

instance {α : Type} (key : α → ℚ) : IsTrans α (keyDescRel key) :=
  ⟨fun _ _ _ h1 h2 => le_trans h2 h1⟩

/-- Stable sort, greatest key first. -/
def sortDescBy {α : Type} (key : α → ℚ) (l : List α) : List α :=
  l.insertionSort (keyDescRel key)

theorem sortDescBy_perm {α : Type} (key : α → ℚ) (l : List α) :
    (sortDescBy key l).Perm l :=
  List.perm_insertionSort _ l

theorem length_sortDescBy {α : Type} (key : α → ℚ) (l : List α) :
    (sortDescBy key l).length = l.length :=
  List.length_insertionSort _ l

theorem sorted_sortDescBy {α : Type} (key : α → ℚ) (l : List α) :
    (sortDescBy key l).Pairwise (fun a b => key b ≤ key a) :=
  List.sorted_insertionSort (keyDescRel key) l

theorem mem_sortDescBy {α : Type} {key : α → ℚ} {l : List α} {a : α} :
    a ∈ sortDescBy key l ↔ a ∈ l :=
  (sortDescBy_perm key l).mem_iff

theorem nodup_sortDescBy {α : Type} {key : α → ℚ} {l : List α} (h : l.Nodup) :
    (sortDescBy key l).Nodup :=
  ((sortDescBy_perm key l).nodup_iff).mpr h

/-! ### Store-assigned identifiers -/

/-- One more than the largest id in use: the next value of the `serial` column. -/
def nextFreeId (ids : List ℕ) : ℕ :=
  ids.foldr max 0 + 1

theorem le_foldr_max {l : List ℕ} {x : ℕ} (h : x ∈ l) : x ≤ l.foldr max 0 := by
  induction l with
  | nil => cases h
  | cons a t ih =>
    rcases List.mem_cons.mp h with rfl | hm
    · exact le_max_left _ _
    · exact le_trans (ih hm) (le_max_right _ _)

theorem mem_ne_nextFreeId {l : List ℕ} {x : ℕ} (h : x ∈ l) : x ≠ nextFreeId l := by
  have := le_foldr_max h
  unfold nextFreeId
  omega

/-- Next id of the `log_entries` table. -/
def nextLogId (store : List LogEntry) : ℕ :=
  nextFreeId (store.map (fun e => e.id))

/-- Next id of the `network_activities` table. -/
def nextActId (store : List NetworkActivity) : ℕ :=
  nextFreeId (store.map (fun a => a.id))

/-! ### Handlers -/

/-- `createLogEntry` (`handlers/create_log_entry.ts`): inserts a row with
`timestamp: new Date()` (the current time — the input has no timestamp field),
the input fields, a store-assigned id and a `defaultNow()` creation timestamp,
and returns the stored row (`result[0]`) together with the new store. -/
def createLogEntry (store : List LogEntry) (now : ℚ) (input : CreateLogEntryInput) :
    LogEntry × List LogEntry :=
  let row : LogEntry :=
    ⟨nextLogId store, now, input.severity, input.source, input.message,
      input.ip_address, input.user_agent, now⟩
  (row, store ++ [row])

/-- `createNetworkActivity` (`handlers/create_network_activity.ts`): inserts a row
with the input fields, `timestamp: new Date()`, a store-assigned id and a
`defaultNow()` creation timestamp, and returns the stored row. -/
def createNetworkActivity (store : List NetworkActivity) (now : ℚ)
    (input : CreateNetworkActivityInput) : NetworkActivity × List NetworkActivity :=
  let row : NetworkActivity :=
    ⟨nextActId store, input.latitude, input.longitude, input.activity_type,
      input.title, input.description, input.ip_address, input.port, input.country,
      input.city, input.severity, now, input.metadata, now⟩
  (row, store ++ [row])

/-- The conditions array built by `getLogEntries` (`handlers/get_log_entries.ts`
lines 9-17): an `eq` condition when a severity filter is present and a `gte`
condition when a `since` bound is present. -/
def logConditions (params : Option LogQueryParams) : List (LogEntry → Bool) :=
  (match params.bind (fun p => p.severity) with
    | some s => [fun e => decide (e.severity = s)]
    | none => []) ++
  (match params.bind (fun p => p.since) with
    | some t => [fun e => decide (t ≤ e.timestamp)]
    | none => [])

/-- The conjunction of the two optional log filters, as a single predicate
(the meaning of the SQL `WHERE and(...)` clause). -/
def logFilterB (sev : Option LogSeverity) (since : Option ℚ) (e : LogEntry) : Bool :=
  (match sev with
    | some s => decide (e.severity = s)
    | none => true) &&
  (match since with
    | some t => decide (t ≤ e.timestamp)
    | none => true)

/-- `getLogEntries` (`handlers/get_log_entries.ts`): filter by the conditions
array (when nonempty), order by timestamp descending, then apply
`limit(params?.limit ?? 50)` and `offset(params?.offset ?? 0)`; SQL applies the
offset before the limit. -/
def getLogEntries (store : List LogEntry) (params : Option LogQueryParams) :
    List LogEntry :=
  let conditions := logConditions params
  let lim := (params.bind (fun p => p.limit)).getD 50
  let off := (params.bind (fun p => p.offset)).getD 0
  if conditions.length > 0 then
    ((sortDescBy (fun e => e.timestamp)
        (store.filter (fun e => conditions.all (fun c => c e)))).drop off).take lim
  else
    ((sortDescBy (fun e => e.timestamp) store).drop off).take lim

/-- The conditions array built by `getNetworkActivities`
(`handlers/get_network_activities.ts` lines 9-21). -/
def actConditions (params : Option NetworkActivityQueryParams) :
    List (NetworkActivity → Bool) :=
  (match params.bind (fun p => p.activity_type) with
    | some t => [fun a => decide (a.activity_type = t)]
    | none => []) ++
  (match params.bind (fun p => p.severity) with
    | some s => [fun a => decide (a.severity = s)]
    | none => []) ++
  (match params.bind (fun p => p.since) with
    | some t => [fun a => decide (t ≤ a.timestamp)]
    | none => [])

/-- The conjunction of the three optional network-activity filters. -/
def actFilterB (aty : Option ActivityType) (sev : Option LogSeverity)
    (since : Option ℚ) (a : NetworkActivity) : Bool :=
  (match aty with
    | some t => decide (a.activity_type = t)
    | none => true) &&
  (match sev with
    | some s => decide (a.severity = s)
    | none => true) &&
  (match since with
    | some t => decide (t ≤ a.timestamp)
    | none => true)

/-- `getNetworkActivities` (`handlers/get_network_activities.ts`): filter by the
conditions array (when nonempty), order by timestamp descending, and apply the
limit only when `params?.limit` is truthy (present and nonzero) — there is no
offset and no default limit. -/
def getNetworkActivities (store : List NetworkActivity)
    (params : Option NetworkActivityQueryParams) : List NetworkActivity :=
  let conditions := actConditions params
  let sorted :=
    if conditions.length > 0 then
      sortDescBy (fun a => a.timestamp)
        (store.filter (fun a => conditions.all (fun c => c a)))
    else
      sortDescBy (fun a => a.timestamp) store
  match params.bind (fun p => p.limit) with
  | some l => if l = 0 then sorted else sorted.take l
  | none => sorted

/-- `getNetworkActivityById` (`handlers/get_network_activity_by_id.ts`): select
the rows with the given id, `limit 1`; return `null` when the result set is
empty and the single row otherwise. -/
def getNetworkActivityById (store : List NetworkActivity) (i : ℕ) :
    Option NetworkActivity :=
  let results := (store.filter (fun a => a.id == i)).take 1
  match results with
  | [] => none
  | a :: _ => some a

/-! ### Dummy data generation (`handlers/generate_dummy_data.ts`)

`Math.random()` calls are modelled by a stream `rand : ℕ → ℚ`; each row builder
consumes a fixed window of the stream. -/

/-- `Math.floor` on a rational (floor division of numerator by denominator). -/
def ratFloor (q : ℚ) : ℤ :=
  q.num.fdiv q.den

theorem ratFloor_eq_floor (q : ℚ) : ratFloor q = ⌊q⌋ := by
  rw [Rat.floor_def, ratFloor, Int.fdiv_eq_ediv]
  exact Int.ofNat_le.mpr (Nat.zero_le _)

/-- `randomChoice` (line 99): `array[Math.floor(Math.random() * array.length)]`.
The default `d` stands for the out-of-range access that cannot occur for a
draw in `[0, 1)`. -/
def randomChoice {α : Type} (r : ℚ) (l : List α) (d : α) : α :=
  l.getD (ratFloor (r * (l.length : ℚ))).toNat d

/-- `randomInt` (line 103): `Math.floor(Math.random() * (max - min + 1)) + min`. -/
def randomInt (r : ℚ) (lo hi : ℤ) : ℤ :=
  ratFloor (r * ((hi : ℚ) - (lo : ℚ) + 1)) + lo

/-- `randomFloat` (line 107): `Math.random() * (max - min) + min`. -/
def randomFloat (r lo hi : ℚ) : ℚ :=
  r * (hi - lo) + lo

/-- `generateRandomIP` (line 111): four random octets joined by dots. -/
def generateRandomIP (r1 r2 r3 r4 : ℚ) : String :=
  toString (randomInt r1 1 255) ++ "." ++ toString (randomInt r2 0 255) ++ "." ++
    toString (randomInt r3 0 255) ++ "." ++ toString (randomInt r4 1 255)

/-- `generateRandomTimestamp` (line 120): now minus a random share of
`hoursBack` hours (in milliseconds). -/
def generateRandomTimestamp (r : ℚ) (now : ℚ) (hoursBack : ℚ) : ℚ :=
  now - r * (hoursBack * 60 * 60 * 1000)

/-- The severity pool sampled by the generators (line 130). -/
def severitiesPool : List LogSeverity :=
  [LogSeverity.info, LogSeverity.warning, LogSeverity.error, LogSeverity.debug,
    LogSeverity.critical]

/-- The activity-type pool sampled by `generateDummyNetworkActivities` (line 155). -/
def activityTypesPool : List ActivityType :=
  [ActivityType.intrusion, ActivityType.firewall, ActivityType.connection,
    ActivityType.scan, ActivityType.breach, ActivityType.traffic]

/-- `SOURCES` (line 4). -/
def SOURCES : List String :=
  ["auth-service", "firewall", "nginx", "database", "api-gateway",
    "load-balancer", "cache-server", "monitoring", "backup-system", "cdn"]

/-- `LOG_MESSAGES` (line 9), keyed by severity. -/
def logMessagesFor : LogSeverity → List String
  | LogSeverity.info =>
    ["User login successful", "System backup completed", "Cache cleared successfully",
      "API request processed", "Database connection established",
      "Service health check passed", "Configuration updated", "Session created"]
  | LogSeverity.warning =>
    ["High memory usage detected", "Slow database query",
      "Connection pool near capacity", "Rate limit approaching",
      "Disk space running low", "SSL certificate expires soon",
      "Failed login attempt", "Unusual traffic pattern"]
  | LogSeverity.error =>
    ["Database connection failed", "Authentication service unavailable",
      "File upload failed", "Payment processing error", "External API timeout",
      "Memory allocation failed", "Configuration file corrupted",
      "Service crash detected"]
  | LogSeverity.debug =>
    ["Query execution time: 125ms", "Cache hit ratio: 94%",
      "Request validation passed", "Environment variable loaded",
      "Thread pool status: active", "Network latency: 45ms", "Memory usage: 67%",
      "CPU utilization: 23%"]
  | LogSeverity.critical =>
    ["System security breach detected", "Data corruption found",
      "Service completely unavailable", "Multiple system failures",
      "Disk failure imminent", "Network infrastructure down",
      "Critical vulnerability exploited", "Emergency shutdown initiated"]

/-- `ACTIVITY_TITLES` (line 62), keyed by activity type. -/
def activityTitlesFor : ActivityType → List String
  | ActivityType.intrusion =>
    ["Unauthorized Access Attempt", "Brute Force Attack", "SQL Injection Detected",
      "Cross-Site Scripting"]
  | ActivityType.firewall =>
    ["Blocked Connection", "Port Scan Blocked", "Malicious IP Filtered",
      "Geographic Restriction"]
  | ActivityType.connection =>
    ["New Connection", "VPN Connection", "Proxy Connection", "Direct Connection"]
  | ActivityType.scan =>
    ["Port Scan Detected", "Vulnerability Scan", "Network Discovery",
      "Service Enumeration"]
  | ActivityType.breach =>
    ["Data Exfiltration", "Credential Theft", "System Compromise", "Malware Detected"]
  | ActivityType.traffic =>
    ["High Traffic Volume", "DDoS Attack", "Bandwidth Spike", "Load Balancing"]

/-- `COUNTRIES` (line 71). -/
def COUNTRIES : List String :=
  ["United States", "China", "Russia", "Germany", "United Kingdom",
    "France", "Japan", "Brazil", "India", "Canada", "Australia",
    "South Korea", "Netherlands", "Sweden", "Poland"]

/-- `CITIES[country] || ['Unknown']` (lines 77 and 158). -/
def citiesFor : String → List String
  | "United States" => ["New York", "Los Angeles", "Chicago", "Houston", "Miami"]
  | "China" => ["Beijing", "Shanghai", "Shenzhen", "Guangzhou", "Chengdu"]
  | "Russia" => ["Moscow", "St. Petersburg", "Novosibirsk", "Yekaterinburg", "Kazan"]
  | "Germany" => ["Berlin", "Hamburg", "Munich", "Cologne", "Frankfurt"]
  | "United Kingdom" => ["London", "Manchester", "Birmingham", "Leeds", "Glasgow"]
  | "France" => ["Paris", "Lyon", "Marseille", "Toulouse", "Nice"]
  | "Japan" => ["Tokyo", "Osaka", "Kyoto", "Yokohama", "Kobe"]
  | "Brazil" => ["São Paulo", "Rio de Janeiro", "Brasília", "Salvador", "Recife"]
  | "India" => ["Mumbai", "Delhi", "Bangalore", "Chennai", "Kolkata"]
  | "Canada" => ["Toronto", "Vancouver", "Montreal", "Calgary", "Ottawa"]
  | _ => ["Unknown"]

/-- `USER_AGENTS` (line 90). -/
def USER_AGENTS : List String :=
  ["Mozilla/5.0 (Windows NT 10.0; Win64; x64) AppleWebKit/537.36",
    "Mozilla/5.0 (Macintosh; Intel Mac OS X 10_15_7) AppleWebKit/537.36",
    "Mozilla/5.0 (X11; Linux x86_64) AppleWebKit/537.36",
    "Mozilla/5.0 (iPhone; CPU iPhone OS 14_7_1 like Mac OS X)",
    "Mozilla/5.0 (Android 11; Mobile; rv:91.0) Gecko/91.0"]

/-- The closing sentences sampled into the activity description (line 202). -/
def descriptionSentences : List String :=
  ["Automated threat detected.", "Manual investigation required.",
    "Pattern matches known attack signature.",
    "Geolocation-based security rule triggered.",
    "Suspicious behavior analysis completed."]

/-- The protocol pool of the generated metadata (line 191). -/
def protocolsPool : List String :=
  ["TCP", "UDP", "HTTP", "HTTPS", "SSH", "FTP"]

/-- One loop iteration of `generateDummyLogEntries` (lines 129-145): draws a
severity, source, message and timestamp (last 72 hours), an optional IP
(probability 0.7) and an optional user agent (probability 0.5); `created_at`
is set to the same value as `timestamp`. Iteration `i` uses stream window
`[12*i, 12*i+12)`. -/
def genLogRow (rand : ℕ → ℚ) (now : ℚ) (i : ℕ) : LogEntry :=
  let d := fun j => rand (12 * i + j)
  let severity := randomChoice (d 0) severitiesPool LogSeverity.info
  let source := randomChoice (d 1) SOURCES "auth-service"
  let message := randomChoice (d 2) (logMessagesFor severity) ""
  let timestamp := generateRandomTimestamp (d 3) now 72
  let ip := if 3 / 10 < d 4 then some (generateRandomIP (d 5) (d 6) (d 7) (d 8)) else none
  let ua := if 1 / 2 < d 9 then
    some (randomChoice (d 10) USER_AGENTS
      "Mozilla/5.0 (Windows NT 10.0; Win64; x64) AppleWebKit/537.36")
    else none
  ⟨i + 1, timestamp, severity, source, message, ip, ua, timestamp⟩

/-- `generateDummyLogEntries` (line 126): build `count` rows and sort them by
timestamp descending. -/
def generateDummyLogEntries (rand : ℕ → ℚ) (now : ℚ) (count : ℕ) : List LogEntry :=
  sortDescBy (fun e => e.timestamp) ((List.range count).map (genLogRow rand now))

/-- The router calls `generateDummyLogEntries(input?.count)`, so an omitted
count defaults to 50 (the default parameter at line 126). -/
def generateDummyLogEntriesOpt (rand : ℕ → ℚ) (now : ℚ) (count : Option ℕ) :
    List LogEntry :=
  generateDummyLogEntries rand now (count.getD 50)

/-- The latitude drawn for a country (lines 163-186). -/
def genLatitude (r : ℚ) (country : String) : ℚ :=
  if country = "United States" then randomFloat r 25 49
  else if country = "China" then randomFloat r 20 50
  else if country = "Russia" then randomFloat r 41 82
  else if country = "Germany" then randomFloat r 47 55
  else if country = "United Kingdom" then randomFloat r 49 61
  else randomFloat r (-85) 85

/-- The longitude drawn for a country (lines 163-186). -/
def genLongitude (r : ℚ) (country : String) : ℚ :=
  if country = "United States" then randomFloat r (-125) (-66)
  else if country = "China" then randomFloat r 73 135
  else if country = "Russia" then randomFloat r 19 169
  else if country = "Germany" then randomFloat r 5 15
  else if country = "United Kingdom" then randomFloat r (-8) 2
  else randomFloat r (-180) 180

/-- One loop iteration of `generateDummyNetworkActivities` (lines 154-218).
Iteration `i` uses stream window `[24*i, 24*i+24)`; `created_at` is set to the
same value as `timestamp`. -/
def genActRow (rand : ℕ → ℚ) (now : ℚ) (i : ℕ) : NetworkActivity :=
  let d := fun j => rand (24 * i + j)
  let activityType := randomChoice (d 0) activityTypesPool ActivityType.intrusion
  let severity := randomChoice (d 1) severitiesPool LogSeverity.info
  let country := randomChoice (d 2) COUNTRIES "United States"
  let city := randomChoice (d 3) (citiesFor country) "Unknown"
  let title := randomChoice (d 4) (activityTitlesFor activityType) ""
  let timestamp := generateRandomTimestamp (d 5) now 48
  let latitude := genLatitude (d 6) country
  let longitude := genLongitude (d 7) country
  let metadata : Metadata :=
    [("bytes_transferred", JsonVal.num ((randomInt (d 8) 1024 1048576 : ℤ) : ℚ)),
      ("connection_duration", JsonVal.num ((randomInt (d 9) 1 3600 : ℤ) : ℚ)),
      ("protocol", JsonVal.str (randomChoice (d 10) protocolsPool "TCP")),
      ("risk_score", JsonVal.num (randomFloat (d 11) 0 100)),
      ("blocked", JsonVal.bool (decide (7 / 10 < d 12)))]
  let description := title ++ " from " ++ city ++ ", " ++ country ++ ". " ++
    randomChoice (d 13) descriptionSentences "Automated threat detected."
  let ip := generateRandomIP (d 14) (d 15) (d 16) (d 17)
  let port := if 3 / 10 < d 18 then some (randomInt (d 19) 1 65535) else none
  ⟨i + 1, latitude, longitude, activityType, title, description, ip, port,
    some country, some city, severity, timestamp, some metadata, timestamp⟩

/-- `generateDummyNetworkActivities` (line 151): build `count` rows and sort
them by timestamp descending. -/
def generateDummyNetworkActivities (rand : ℕ → ℚ) (now : ℚ) (count : ℕ) :
    List NetworkActivity :=
  sortDescBy (fun a => a.timestamp) ((List.range count).map (genActRow rand now))

/-- The router calls `generateDummyNetworkActivities(input?.count)`, so an
omitted count defaults to 100 (the default parameter at line 151). -/
def generateDummyNetworkActivitiesOpt (rand : ℕ → ℚ) (now : ℚ) (count : Option ℕ) :
    List NetworkActivity :=
  generateDummyNetworkActivities rand now (count.getD 100)

/-- `streamRandomLogEntry` (lines 224-240): one fabricated row timestamped at
call time; the id is `Date.now()` (the current time in milliseconds) and
`created_at` equals `timestamp`, both set to `now`. -/
def streamRandomLogEntry (rand : ℕ → ℚ) (now : ℚ) : LogEntry :=
  let severity := randomChoice (rand 0) severitiesPool LogSeverity.info
  let source := randomChoice (rand 1) SOURCES "auth-service"
  let message := randomChoice (rand 2) (logMessagesFor severity) ""
  let ip := if 3 / 10 < rand 3 then
    some (generateRandomIP (rand 4) (rand 5) (rand 6) (rand 7)) else none
  let ua := if 1 / 2 < rand 8 then
    some (randomChoice (rand 9) USER_AGENTS
      "Mozilla/5.0 (Windows NT 10.0; Win64; x64) AppleWebKit/537.36")
    else none
  ⟨(ratFloor now).toNat, now, severity, source, message, ip, ua, now⟩

/-! ### Characterization of the listing handlers -/

/-- The full log listing for given filters, in the spec's words: the stored rows
satisfying the conjunction of the supplied filters, ordered by event timestamp
descending. -/
def logListing (store : List LogEntry) (sev : Option LogSeverity) (since : Option ℚ) :
    List LogEntry :=
  sortDescBy (fun e => e.timestamp) (store.filter (logFilterB sev since))

/-- The full network-activity listing for given filters, in the spec's words. -/
def networkListing (store : List NetworkActivity) (aty : Option ActivityType)
    (sev : Option LogSeverity) (since : Option ℚ) : List NetworkActivity :=
  sortDescBy (fun a => a.timestamp) (store.filter (actFilterB aty sev since))

theorem logConditions_all (params : Option LogQueryParams) (e : LogEntry) :
    (logConditions params).all (fun c => c e) =
      logFilterB (params.bind (fun p => p.severity)) (params.bind (fun p => p.since)) e := by
  cases hs : params.bind (fun p => p.severity) <;>
    cases ht : params.bind (fun p => p.since) <;>
      simp [logConditions, logFilterB, hs, ht]

theorem logConditions_nil (params : Option LogQueryParams)
    (h : ¬ (logConditions params).length > 0) (e : LogEntry) :
    logFilterB (params.bind (fun p => p.severity)) (params.bind (fun p => p.since)) e = true := by
  cases hs : params.bind (fun p => p.severity) <;>
    cases ht : params.bind (fun p => p.since) <;>
      simp [logConditions, hs, ht, logFilterB] at h ⊢

/-- The log-entry listing is exactly: filter by the conjunction of the supplied
filters, sort by timestamp descending, skip `offset ?? 0` rows, return at most
`limit ?? 50` rows. -/
theorem getLogEntries_eq (store : List LogEntry) (params : Option LogQueryParams) :
    getLogEntries store params =
      ((logListing store (params.bind (fun p => p.severity))
          (params.bind (fun p => p.since))).drop
        ((params.bind (fun p => p.offset)).getD 0)).take
        ((params.bind (fun p => p.limit)).getD 50) := by
  have hf : ∀ e ∈ store, ((logConditions params).all fun c => c e) =
      logFilterB (params.bind (fun p => p.severity)) (params.bind (fun p => p.since)) e :=
    fun e _ => logConditions_all params e
  by_cases h : (logConditions params).length > 0
  · simp only [getLogEntries, logListing, if_pos h, List.filter_congr hf]
  · have h0 : store.filter
        (logFilterB (params.bind (fun p => p.severity))
          (params.bind (fun p => p.since))) = store := by
      rw [List.filter_eq_self]
      intro e _
      exact logConditions_nil params h e
    simp only [getLogEntries, logListing, if_neg h, h0]

theorem actConditions_all (params : Option NetworkActivityQueryParams)
    (a : NetworkActivity) :
    (actConditions params).all (fun c => c a) =
      actFilterB (params.bind (fun p => p.activity_type))
        (params.bind (fun p => p.severity)) (params.bind (fun p => p.since)) a := by
  cases hy : params.bind (fun p => p.activity_type) <;>
    cases hs : params.bind (fun p => p.severity) <;>
      cases ht : params.bind (fun p => p.since) <;>
        simp [actConditions, actFilterB, hy, hs, ht, Bool.and_assoc]

theorem actConditions_nil (params : Option NetworkActivityQueryParams)
    (h : ¬ (actConditions params).length > 0) (a : NetworkActivity) :
    actFilterB (params.bind (fun p => p.activity_type))
      (params.bind (fun p => p.severity)) (params.bind (fun p => p.since)) a = true := by
  cases hy : params.bind (fun p => p.activity_type) <;>
    cases hs : params.bind (fun p => p.severity) <;>
      cases ht : params.bind (fun p => p.since) <;>
        simp [actConditions, hy, hs, ht, actFilterB] at h ⊢

/-- The network-activity listing is exactly: filter by the conjunction of the
supplied filters, sort by timestamp descending, and truncate only when a
nonzero limit was supplied. -/
theorem getNetworkActivities_eq (store : List NetworkActivity)
    (params : Option NetworkActivityQueryParams) :
    getNetworkActivities store params =
      (match params.bind (fun p => p.limit) with
        | some l =>
          if l = 0 then
            networkListing store (params.bind (fun p => p.activity_type))
              (params.bind (fun p => p.severity)) (params.bind (fun p => p.since))
          else
            (networkListing store (params.bind (fun p => p.activity_type))
              (params.bind (fun p => p.severity)) (params.bind (fun p => p.since))).take l
        | none =>
          networkListing store (params.bind (fun p => p.activity_type))
            (params.bind (fun p => p.severity)) (params.bind (fun p => p.since))) := by
  have hf : ∀ a ∈ store, ((actConditions params).all fun c => c a) =
      actFilterB (params.bind (fun p => p.activity_type))
        (params.bind (fun p => p.severity)) (params.bind (fun p => p.since)) a :=
    fun a _ => actConditions_all params a
  by_cases h : (actConditions params).length > 0
  · simp only [getNetworkActivities, networkListing, if_pos h, List.filter_congr hf]
  · have h0 : store.filter
        (actFilterB (params.bind (fun p => p.activity_type))
          (params.bind (fun p => p.severity)) (params.bind (fun p => p.since))) = store := by
      rw [List.filter_eq_self]
      intro a _
      exact actConditions_nil params h a
    simp only [getNetworkActivities, networkListing, if_neg h, h0]

theorem byId_none {store : List NetworkActivity} {i : ℕ}
    (h : ∀ a ∈ store, a.id ≠ i) : getNetworkActivityById store i = none := by
  have hfil : store.filter (fun a => a.id == i) = [] := by
    rw [List.filter_eq_nil_iff]
    intro a ha
    simpa using h a ha
  simp [getNetworkActivityById, hfil]

theorem byId_some {store : List NetworkActivity} {i : ℕ} {a : NetworkActivity}
    (hnd : (store.map (fun x => x.id)).Nodup) (ha : a ∈ store) (hid : a.id = i) :
    getNetworkActivityById store i = some a := by
  induction store with
  | nil => cases ha
  | cons b rest ih =>
    rw [List.map_cons, List.nodup_cons] at hnd
    rcases List.mem_cons.mp ha with rfl | hmem
    · simp [getNetworkActivityById, List.filter_cons, hid]
    · have hbne : ¬ b.id = i :=
        fun hb => hnd.1 (List.mem_map.mpr ⟨a, hmem, hid.trans hb.symm⟩)
      have hrec := ih hnd.2 hmem
      simp only [getNetworkActivityById, List.filter_cons] at hrec ⊢
      simpa [hbne] using hrec

/-! ### Claim C1 -/

/-- Two stored rows agreeing on every filterable attribute except timestamp. -/
def ceLogA : LogEntry :=
  ⟨1, 3, LogSeverity.info, "auth-service", "m1", none, none, 3⟩

def ceLogB : LogEntry :=
  ⟨2, 5, LogSeverity.info, "firewall", "m2", none, none, 5⟩

def ceLogStore : List LogEntry :=
  [ceLogA, ceLogB]

/-- A call supplying no filters, only `limit: 1`. -/
def ceLogParams : Option LogQueryParams :=
  some ⟨some 1, none, none, none⟩

/-- C1, counterexample: with two stored rows and a call supplying no filters
(only `limit: 1`), the row `ceLogA` satisfies the (empty) conjunction of the
supplied filters yet is not returned, because pagination truncates the result.
So the returned list is not "exactly the stored log entries satisfying the
conjunction of all supplied filters". -/
theorem claimC1_counterexample :
    ceLogA ∈ ceLogStore ∧
    logFilterB (ceLogParams.bind (fun p => p.severity))
      (ceLogParams.bind (fun p => p.since)) ceLogA = true ∧
    ceLogA ∉ getLogEntries ceLogStore ceLogParams := by
  decide

/-- C1, amended: for every call to `getLogEntries`, the returned list is exactly
the `limit`/`offset` page (defaults 50 and 0) of the stored log entries
satisfying the conjunction of all supplied filters — severity equality when a
severity filter is supplied, event timestamp ≥ the bound (inclusive) when a
"since" bound is supplied, no restriction for an omitted filter — ordered by
event timestamp descending. -/
theorem claimC1_page_of_filtered (store : List LogEntry)
    (params : Option LogQueryParams) :
    getLogEntries store params =
      ((logListing store (params.bind (fun p => p.severity))
          (params.bind (fun p => p.since))).drop
        ((params.bind (fun p => p.offset)).getD 0)).take
        ((params.bind (fun p => p.limit)).getD 50) :=
  getLogEntries_eq store params

/-! ### Claim C2 -/

/-- C2: a call with no parameters returns the stored rows ordered by event
timestamp descending, truncated to the default limit 50 at the default offset 0;
supplied limit and offset replace those defaults (for any optional filters). -/
theorem claimC2_defaults (store : List LogEntry) :
    getLogEntries store none = (sortDescBy (fun e => e.timestamp) store).take 50 ∧
    (∀ (l o : ℕ) (sev : Option LogSeverity) (since : Option ℚ),
      getLogEntries store (some ⟨some l, some o, sev, since⟩) =
        ((logListing store sev since).drop o).take l) := by
  constructor
  · rw [getLogEntries_eq]
    have h0 : store.filter (logFilterB none none) = store := by
      rw [List.filter_eq_self]
      intro e _
      rfl
    simp [logListing, h0]
  · intro l o sev since
    rw [getLogEntries_eq]
    simp

/-! ### Claim C3 -/

/-- C3: lookup of an identifier with no matching row returns `none` (and, being
a total function, never throws); lookup of an identifier carried by a stored row
returns exactly that row (identifiers are unique, being a serial primary key). -/
theorem claimC3_lookup_by_id (store : List NetworkActivity) (i : ℕ) :
    ((∀ a ∈ store, a.id ≠ i) → getNetworkActivityById store i = none) ∧
    ((store.map (fun x => x.id)).Nodup →
      ∀ a ∈ store, a.id = i → getNetworkActivityById store i = some a) :=
  ⟨fun h => byId_none h, fun hnd _ ha hid => byId_some hnd ha hid⟩

def wAct1 : NetworkActivity :=
  ⟨1, 10, 20, ActivityType.connection, "t", "d", "1.2.3.4", none, none, none,
    LogSeverity.info, 100, none, 100⟩

def wActStore : List NetworkActivity :=
  [wAct1]

/-- C3, witness: on a concrete one-row store, a missing id yields `none` and the
stored id yields its row. -/
theorem claimC3_witness :
    (∀ a ∈ wActStore, a.id ≠ 99) ∧ getNetworkActivityById wActStore 99 = none ∧
    (wActStore.map (fun x => x.id)).Nodup ∧
    getNetworkActivityById wActStore 1 = some wAct1 :=
  ⟨by decide, (claimC3_lookup_by_id wActStore 99).1 (by decide), by decide,
    (claimC3_lookup_by_id wActStore 1).2 (by decide) wAct1 (by decide) (by decide)⟩

/-! ### Claim C6 -/

/-- C6: the inserted log row's event timestamp is the current time at insert
time (the create input schema has no timestamp field, so a caller-supplied
value cannot occur and the default applies), and the call returns the stored
row itself, including the store-assigned identifier and the creation
timestamp, with the input fields copied verbatim. -/
theorem claimC6_create_timestamps (store : List LogEntry) (now : ℚ)
    (input : CreateLogEntryInput) :
    (createLogEntry store now input).1.timestamp = now ∧
    (createLogEntry store now input).1.created_at = now ∧
    (createLogEntry store now input).1.id = nextLogId store ∧
    (createLogEntry store now input).2 = store ++ [(createLogEntry store now input).1] ∧
    (createLogEntry store now input).1.severity = input.severity ∧
    (createLogEntry store now input).1.source = input.source ∧
    (createLogEntry store now input).1.message = input.message ∧
    (createLogEntry store now input).1.ip_address = input.ip_address ∧
    (createLogEntry store now input).1.user_agent = input.user_agent :=
  ⟨rfl, rfl, rfl, rfl, rfl, rfl, rfl, rfl, rfl⟩

/-! ### Claim C8 -/

theorem getLogEntries_subset {store : List LogEntry} {params : Option LogQueryParams}
    {e : LogEntry} (h : e ∈ getLogEntries store params) : e ∈ store := by
  rw [getLogEntries_eq] at h
  have h1 := List.take_subset _ _ h
  have h2 := List.drop_subset _ _ h1
  rw [logListing, mem_sortDescBy] at h2
  exact List.mem_of_mem_filter h2

theorem getNetworkActivities_subset {store : List NetworkActivity}
    {params : Option NetworkActivityQueryParams} {a : NetworkActivity}
    (h : a ∈ getNetworkActivities store params) : a ∈ store := by
  rw [getNetworkActivities_eq] at h
  have hmem : a ∈ networkListing store (params.bind (fun p => p.activity_type))
      (params.bind (fun p => p.severity)) (params.bind (fun p => p.since)) := by
    rcases hl : params.bind (fun p => p.limit) with _ | l
    · rw [hl] at h
      exact h
    · rw [hl] at h
      by_cases h0 : l = 0
      · simpa [h0] using h
      · exact List.take_subset _ _ (by simpa [h0] using h)
  rw [networkListing, mem_sortDescBy] at hmem
  exact List.mem_of_mem_filter hmem

/-- C8: a creation with a nullable field set to null stores and returns that
field as null; the created network row is found unchanged by a subsequent
lookup; and every row returned by a subsequent listing is a row of the store
(so its fields, null or not, are returned verbatim). -/
theorem claimC8_nullable_roundtrip (lstore : List LogEntry)
    (astore : List NetworkActivity) (now : ℚ) (li : CreateLogEntryInput)
    (ai : CreateNetworkActivityInput) :
    (li.ip_address = none → (createLogEntry lstore now li).1.ip_address = none) ∧
    (li.user_agent = none → (createLogEntry lstore now li).1.user_agent = none) ∧
    (ai.port = none → (createNetworkActivity astore now ai).1.port = none) ∧
    (ai.country = none → (createNetworkActivity astore now ai).1.country = none) ∧
    (ai.city = none → (createNetworkActivity astore now ai).1.city = none) ∧
    (ai.metadata = none → (createNetworkActivity astore now ai).1.metadata = none) ∧
    ((astore.map (fun x => x.id)).Nodup →
      getNetworkActivityById (createNetworkActivity astore now ai).2
        (nextActId astore) = some (createNetworkActivity astore now ai).1) ∧
    (∀ (params : Option LogQueryParams) (e : LogEntry),
      e ∈ getLogEntries (createLogEntry lstore now li).2 params →
        e ∈ (createLogEntry lstore now li).2) ∧
    (∀ (params : Option NetworkActivityQueryParams) (a : NetworkActivity),
      a ∈ getNetworkActivities (createNetworkActivity astore now ai).2 params →
        a ∈ (createNetworkActivity astore now ai).2) := by
  refine ⟨fun h => h ▸ rfl, fun h => h ▸ rfl, fun h => h ▸ rfl, fun h => h ▸ rfl,
    fun h => h ▸ rfl, fun h => h ▸ rfl, fun hnd => ?_,
    fun params e h => getLogEntries_subset h,
    fun params a h => getNetworkActivities_subset h⟩
  have hnd2 : (((createNetworkActivity astore now ai).2).map (fun x => x.id)).Nodup := by
    rw [show (createNetworkActivity astore now ai).2 =
        astore ++ [(createNetworkActivity astore now ai).1] from rfl]
    rw [List.map_append]
    refine List.Nodup.append hnd (List.nodup_singleton _) ?_
    intro x hx hy
    rcases List.mem_singleton.mp hy with rfl
    exact mem_ne_nextFreeId hx rfl
  exact byId_some hnd2
    (List.mem_append_right _ (List.mem_singleton_self _)) rfl

def wLi : CreateLogEntryInput :=
  ⟨LogSeverity.critical, "security-system", "Critical security alert", none, none⟩

def wAi : CreateNetworkActivityInput :=
  ⟨10, 20, ActivityType.scan, "t", "d", "9.9.9.9", none, none, none,
    LogSeverity.info, none⟩

/-- C8, witness: on empty stores and inputs with all nullable fields null, the
round-trip preserves the nulls and the created activity is found by id. -/
theorem claimC8_witness :
    wLi.ip_address = none ∧ (createLogEntry [] 0 wLi).1.ip_address = none ∧
    wAi.port = none ∧ (createNetworkActivity [] 0 wAi).1.port = none ∧
    wAi.metadata = none ∧ (createNetworkActivity [] 0 wAi).1.metadata = none ∧
    (([] : List NetworkActivity).map (fun x => x.id)).Nodup ∧
    getNetworkActivityById (createNetworkActivity [] 0 wAi).2 (nextActId []) =
      some (createNetworkActivity [] 0 wAi).1 :=
  ⟨rfl, (claimC8_nullable_roundtrip [] [] 0 wLi wAi).1 rfl,
    rfl, (claimC8_nullable_roundtrip [] [] 0 wLi wAi).2.2.1 rfl,
    rfl, (claimC8_nullable_roundtrip [] [] 0 wLi wAi).2.2.2.2.2.1 rfl,
    by decide,
    (claimC8_nullable_roundtrip [] [] 0 wLi wAi).2.2.2.2.2.2.1 (by decide)⟩

/-! ### Claim C9 -/

/-- C9: a network-activity listing with the limit omitted returns the full
filtered listing — every stored row matching the supplied filters, with no
default cap — whereas the log-entry listing with no parameters is capped at the
default limit of 50. -/
theorem claimC9_no_default_cap (store : List NetworkActivity)
    (aty : Option ActivityType) (sev : Option LogSeverity) (since : Option ℚ) :
    getNetworkActivities store (some ⟨none, aty, sev, since⟩) =
      networkListing store aty sev since ∧
    (getNetworkActivities store (some ⟨none, aty, sev, since⟩)).length =
      (store.filter (actFilterB aty sev since)).length ∧
    getNetworkActivities store none = sortDescBy (fun a => a.timestamp) store ∧
    (∀ lstore : List LogEntry, (getLogEntries lstore none).length = min 50 lstore.length) := by
  have h1 : getNetworkActivities store (some ⟨none, aty, sev, since⟩) =
      networkListing store aty sev since := by
    rw [getNetworkActivities_eq]
    rfl
  refine ⟨h1, ?_, ?_, ?_⟩
  · rw [h1, networkListing, length_sortDescBy]
  · rw [getNetworkActivities_eq]
    have h0 : store.filter (actFilterB none none none) = store := by
      rw [List.filter_eq_self]
      intro a _
      rfl
    simp [networkListing, h0]
  · intro lstore
    rw [getLogEntries_eq]
    have h0 : lstore.filter (logFilterB none none) = lstore := by
      rw [List.filter_eq_self]
      intro e _
      rfl
    simp [logListing, h0, List.length_take, length_sortDescBy]

/-! ### Claim C4 -/

/-- C4: both bulk generators return exactly the requested number of rows,
sorted by event timestamp descending, and an omitted count defaults to 50
(log entries) and 100 (network activities). -/
theorem claimC4_generator_counts (rand : ℕ → ℚ) (now : ℚ) (count : ℕ) :
    (generateDummyLogEntries rand now count).length = count ∧
    (generateDummyLogEntries rand now count).Pairwise
      (fun a b => b.timestamp ≤ a.timestamp) ∧
    (generateDummyNetworkActivities rand now count).length = count ∧
    (generateDummyNetworkActivities rand now count).Pairwise
      (fun a b => b.timestamp ≤ a.timestamp) ∧
    generateDummyLogEntriesOpt rand now none = generateDummyLogEntries rand now 50 ∧
    generateDummyNetworkActivitiesOpt rand now none =
      generateDummyNetworkActivities rand now 100 := by
  refine ⟨?_, ?_, ?_, ?_, rfl, rfl⟩
  · rw [generateDummyLogEntries, length_sortDescBy, List.length_map, List.length_range]
  · exact sorted_sortDescBy _ _
  · rw [generateDummyNetworkActivities, length_sortDescBy, List.length_map,
      List.length_range]
  · exact sorted_sortDescBy _ _

/-! ### Claim C5 -/

theorem getD_mem {α : Type} {l : List α} {n : ℕ} {d : α} (hd : d ∈ l) :
    l.getD n d ∈ l := by
  rcases h : l[n]? with _ | a
  · simp [List.getD_eq_getElem?_getD, h, hd]
  · have ha : a ∈ l := List.get?_mem (by rw [List.get?_eq_getElem?, h])
    simp [List.getD_eq_getElem?_getD, h, ha]

theorem severity_mem_pool (s : LogSeverity) : s ∈ severitiesPool := by
  cases s <;> simp [severitiesPool]

theorem activityType_mem_pool (t : ActivityType) : t ∈ activityTypesPool := by
  cases t <;> simp [activityTypesPool]

theorem randomFloat_range {r lo hi A B : ℚ} (h0 : 0 ≤ r) (h1 : r < 1)
    (hlh : lo ≤ hi) (hA : A ≤ lo) (hB : hi ≤ B) :
    A ≤ randomFloat r lo hi ∧ randomFloat r lo hi ≤ B := by
  unfold randomFloat
  constructor
  · nlinarith
  · nlinarith

theorem genLatitude_bounds {r : ℚ} (h0 : 0 ≤ r) (h1 : r < 1) (country : String) :
    -90 ≤ genLatitude r country ∧ genLatitude r country ≤ 90 := by
  unfold genLatitude
  split_ifs <;>
    exact randomFloat_range h0 h1 (by norm_num) (by norm_num) (by norm_num)

theorem genLongitude_bounds {r : ℚ} (h0 : 0 ≤ r) (h1 : r < 1) (country : String) :
    -180 ≤ genLongitude r country ∧ genLongitude r country ≤ 180 := by
  unfold genLongitude
  split_ifs <;>
    exact randomFloat_range h0 h1 (by norm_num) (by norm_num) (by norm_num)

/-- C5: every generated row draws its severity (and, for network activities,
its activity type) from the fixed five- and six-value enumerations, and every
generated coordinate lies within the valid latitude range `[-90, 90]` and
longitude range `[-180, 180]`, given that every random draw lies in `[0, 1)`. -/
theorem claimC5_enums_and_ranges (rand : ℕ → ℚ) (now : ℚ) (count : ℕ)
    (hr : ∀ i, 0 ≤ rand i ∧ rand i < 1) :
    (∀ e ∈ generateDummyLogEntries rand now count, e.severity ∈ severitiesPool) ∧
    (∀ a ∈ generateDummyNetworkActivities rand now count,
      a.severity ∈ severitiesPool ∧ a.activity_type ∈ activityTypesPool ∧
      -90 ≤ a.latitude ∧ a.latitude ≤ 90 ∧
      -180 ≤ a.longitude ∧ a.longitude ≤ 180) := by
  constructor
  · intro e _
    exact severity_mem_pool _
  · intro a ha
    rw [generateDummyNetworkActivities, mem_sortDescBy] at ha
    rcases List.mem_map.mp ha with ⟨k, _, rfl⟩
    have h6 := hr (24 * k + 6)
    have h7 := hr (24 * k + 7)
    have hlat := genLatitude_bounds h6.1 h6.2
      (randomChoice (rand (24 * k + 2)) COUNTRIES "United States")
    have hlng := genLongitude_bounds h7.1 h7.2
      (randomChoice (rand (24 * k + 2)) COUNTRIES "United States")
    exact ⟨severity_mem_pool _, activityType_mem_pool _,
      hlat.1, hlat.2, hlng.1, hlng.2⟩

/-- The all-zero draw stream: a concrete valid sequence of random values. -/
def zeroRand : ℕ → ℚ := fun _ => 0

/-- C5, witness: the hypothesis holds for the all-zero draw stream, and the
theorem applies to it. -/
theorem claimC5_witness :
    (∀ i, 0 ≤ zeroRand i ∧ zeroRand i < 1) ∧
    ((∀ e ∈ generateDummyLogEntries zeroRand 0 1, e.severity ∈ severitiesPool) ∧
     (∀ a ∈ generateDummyNetworkActivities zeroRand 0 1,
       a.severity ∈ severitiesPool ∧ a.activity_type ∈ activityTypesPool ∧
       -90 ≤ a.latitude ∧ a.latitude ≤ 90 ∧
       -180 ≤ a.longitude ∧ a.longitude ≤ 180)) :=
  ⟨fun _ => ⟨le_refl 0, zero_lt_one⟩,
    claimC5_enums_and_ranges zeroRand 0 1 (fun _ => ⟨le_refl 0, zero_lt_one⟩)⟩

/-! ### Claim C10 -/

/-- C10: every row produced by any of the three dummy generators has its
`created_at` field equal to its event timestamp field. -/
theorem claimC10_created_at_eq_timestamp (rand : ℕ → ℚ) (now : ℚ) (count : ℕ) :
    ((generateDummyLogEntries rand now count).all
      (fun e => decide (e.created_at = e.timestamp))) = true ∧
    ((generateDummyNetworkActivities rand now count).all
      (fun a => decide (a.created_at = a.timestamp))) = true ∧
    (streamRandomLogEntry rand now).created_at =
      (streamRandomLogEntry rand now).timestamp := by
  refine ⟨?_, ?_, rfl⟩
  · rw [List.all_eq_true]
    intro e he
    rw [generateDummyLogEntries, mem_sortDescBy] at he
    rcases List.mem_map.mp he with ⟨k, _, rfl⟩
    exact decide_eq_true rfl
  · rw [List.all_eq_true]
    intro a ha
    rw [generateDummyNetworkActivities, mem_sortDescBy] at ha
    rcases List.mem_map.mp ha with ⟨k, _, rfl⟩
    exact decide_eq_true rfl

/-! ### Claim C7 -/

/-- C7: over any store with distinct identifiers and any filters, two pages of
size `n` at offsets at least `n` apart are disjoint, every page has at most `n`
rows, and concatenating the pages in offset order reproduces the
descending-timestamp full listing (each prefix of pages is a prefix of the
listing). -/
theorem claimC7_pagination (store : List LogEntry) (sev : Option LogSeverity)
    (since : Option ℚ) (n o1 o2 : ℕ)
    (hnd : (store.map (fun e => e.id)).Nodup)
    (hsep : o1 + n ≤ o2 ∨ o2 + n ≤ o1) :
    List.Disjoint
      (getLogEntries store (some ⟨some n, some o1, sev, since⟩))
      (getLogEntries store (some ⟨some n, some o2, sev, since⟩)) ∧
    (getLogEntries store (some ⟨some n, some o1, sev, since⟩)).length ≤ n ∧
    (getLogEntries store (some ⟨some n, some o2, sev, since⟩)).length ≤ n ∧
    (∀ m : ℕ,
      ((List.range m).map (fun k =>
        getLogEntries store (some ⟨some n, some (k * n), sev, since⟩))).flatten =
      (logListing store sev since).take (m * n)) := by
  have hpage : ∀ o : ℕ, getLogEntries store (some ⟨some n, some o, sev, since⟩) =
      ((logListing store sev since).drop o).take n := fun o =>
    getLogEntries_eq store (some ⟨some n, some o, sev, since⟩)
  have hLnd : (logListing store sev since).Nodup :=
    nodup_sortDescBy ((List.Nodup.of_map _ hnd).filter _)
  have key : ∀ p q : ℕ, p + n ≤ q →
      List.Disjoint
        (getLogEntries store (some ⟨some n, some p, sev, since⟩))
        (getLogEntries store (some ⟨some n, some q, sev, since⟩)) := by
    intro p q hpq
    rw [hpage p, hpage q]
    intro x hx1 hx2
    have hnd1 : ((logListing store sev since).drop p).Nodup :=
      (List.drop_sublist _ _).nodup hLnd
    refine List.disjoint_take_drop hnd1 (le_refl n) hx1 ?_
    have h2 : x ∈ (logListing store sev since).drop q := List.take_subset _ _ hx2
    have e12 : (logListing store sev since).drop q =
        (((logListing store sev since).drop p).drop n).drop (q - p - n) := by
      simp only [List.drop_drop]
      congr 1
      omega
    rw [e12] at h2
    exact List.drop_subset _ _ h2
  refine ⟨?_, ?_, ?_, ?_⟩
  · rcases hsep with h | h
    · exact key o1 o2 h
    · intro x hx1 hx2
      exact key o2 o1 h hx2 hx1
  · rw [hpage o1]
    exact List.length_take_le _ _
  · rw [hpage o2]
    exact List.length_take_le _ _
  · intro m
    induction m with
    | zero => simp
    | succ m ih =>
      rw [show List.range (m + 1) = List.range m ++ [m] from List.range_succ m,
        List.map_append, List.flatten_append, ih]
      simp only [List.map_cons, List.map_nil, List.flatten_cons, List.flatten_nil,
        List.append_nil]
      rw [hpage (m * n), Nat.succ_mul, List.take_add]

def wLogA : LogEntry :=
  ⟨1, 1, LogSeverity.info, "s", "m1", none, none, 1⟩

def wLogB : LogEntry :=
  ⟨2, 2, LogSeverity.warning, "s", "m2", none, none, 2⟩

def wLogStore : List LogEntry :=
  [wLogA, wLogB]

/-- C7, witness: both hypotheses hold on a concrete two-row store with page
size 1 and offsets 0 and 1, and the theorem applies to it. -/
theorem claimC7_witness :
    (wLogStore.map (fun e => e.id)).Nodup ∧ (0 + 1 ≤ 1 ∨ 1 + 1 ≤ 0) ∧
    (List.Disjoint
      (getLogEntries wLogStore (some ⟨some 1, some 0, none, none⟩))
      (getLogEntries wLogStore (some ⟨some 1, some 1, none, none⟩)) ∧
    (getLogEntries wLogStore (some ⟨some 1, some 0, none, none⟩)).length ≤ 1 ∧
    (getLogEntries wLogStore (some ⟨some 1, some 1, none, none⟩)).length ≤ 1 ∧
    (∀ m : ℕ,
      ((List.range m).map (fun k =>
        getLogEntries wLogStore (some ⟨some 1, some (k * 1), none, none⟩))).flatten =
      (logListing wLogStore none none).take (m * 1))) :=
  ⟨by decide, by decide,
    claimC7_pagination wLogStore none none 1 0 1 (by decide) (by decide)⟩
